import Mathlib

/-!
Verification of the instruction-model / linking / encoding pipeline of an
assembler for a custom VM, centred on the arithmetic `Add` instruction
(`src/assembly/instruction/add.rs`).

The `Add` record, `Add.build_from_parts`, `Add.link` and the
`TryFrom<Add> for DecodedOpcode` conversion are translated directly from the
source file.  The helpers they call (`parse_canonical_operands_sequence`,
`pick_condition`, `pick_setting_flags`, `link_operand`, `as_register_operand`,
`as_generic_operand`, `set_src0_or_dst0_full_operand`, `set_register_operand`)
and the operand / condition / binary-record data types live in repository
modules that are not part of the provided sources; those are modelled from the
specification, each with a doc comment saying so.
-/

namespace ZkAsm

deriving instance DecidableEq for Except

/-- Modelled from the spec: one of the three independent symbol namespaces a
label can refer to (function labels, constant-pool labels, global labels). -/
inductive LabelNamespace where
| function : LabelNamespace
| constant : LabelNamespace
| global : LabelNamespace
deriving DecidableEq

/-- Modelled from the spec: the register-only operand (a register index). -/
structure RegisterOperand where
index : Nat
deriving DecidableEq

/-- Modelled from the spec: the full operand union — register, immediate,
memory reference, or a not-yet-resolved label reference carrying its
namespace hint. -/
inductive FullOperand where
| Register : RegisterOperand → FullOperand
| Immediate : Nat → FullOperand
| MemoryRef : Nat → Nat → FullOperand
| UnresolvedLabel : String → LabelNamespace → FullOperand
deriving DecidableEq

/-- Modelled from the spec: a resolved (label-free) operand, the only form the
encoder accepts. -/
inductive GenericOperand where
| Register : Nat → GenericOperand
| Immediate : Nat → GenericOperand
| MemoryRef : Nat → Nat → GenericOperand
deriving DecidableEq

/-- Modelled from the spec: the closed set of execution predicates, with the
default case used when no condition modifier is present. -/
inductive Condition where
| always : Condition
| gt : Condition
| lt : Condition
| eq : Condition
| ge : Condition
| le : Condition
| ne : Condition
deriving DecidableEq

/-- Modelled from the spec: newtype around `Condition` as parsed from a
condition modifier (the Rust `ConditionCase`, whose payload is field `0`). -/
structure ConditionCase where
c : Condition
deriving DecidableEq

/-- Modelled from the spec: boolean-valued flag-setting modifier (the Rust
`SetFlags`, whose payload is field `0`); default is false. -/
structure SetFlags where
b : Bool
deriving DecidableEq

/-- Sub-variant tag of the addition opcode family. -/
inductive AddOpcode where
| Add : AddOpcode
deriving DecidableEq

/-- Modelled from the spec: the opcode identifier stamped into the binary
record; `Invalid` is the default before an encoder writes a real opcode. -/
inductive Opcode where
| Invalid : Opcode
| Add : AddOpcode → Opcode
deriving DecidableEq

/-- Modelled from the spec: index of the set-flags bit inside the variant's
flags bit array. -/
def SET_FLAGS_FLAG_IDX : Nat := 0

/-- Modelled from the spec: opcode identifier plus sub-variant data and the
flags bit array of the binary opcode record. -/
structure OpcodeVariant where
opcode : Opcode
flags : List Bool
deriving DecidableEq

/-- Modelled from the spec: the default variant — invalid opcode, all flag
bits cleared. -/
def OpcodeVariant.default : OpcodeVariant :=
{ opcode := Opcode.Invalid, flags := [false, false] }

/-- Modelled from the spec: the fixed-width binary opcode record — opcode
variant, condition field, the src0 slot, the dedicated second-source register
slot, and the dst0 slot. -/
structure DecodedOpcode where
variant : OpcodeVariant
condition : Condition
src0 : GenericOperand
src1_reg_idx : Nat
dst0 : GenericOperand
deriving DecidableEq

/-- Modelled from the spec: the default binary record, before any encoder
writes into it. -/
def DecodedOpcode.default : DecodedOpcode :=
{ variant := OpcodeVariant.default
  condition := Condition.always
  src0 := GenericOperand.Immediate 0
  src1_reg_idx := 0
  dst0 := GenericOperand.Immediate 0 }

/-- Modelled from the spec: an expected operand kind in a template — an
unresolved label, a full operand, or a register-only operand. -/
inductive OperandType where
| Label : OperandType
| FullOp : OperandType
| RegOnly : OperandType
deriving DecidableEq

/-- Modelled from the spec: the template marker admitting any full operand. -/
def marker_full_operand : OperandType := OperandType.FullOp

/-- Modelled from the spec: the template marker admitting only a register. -/
def marker_register_operand : OperandType := OperandType.RegOnly

/-- Modelled from the spec: the per-instruction construction errors —
classification errors from the operand matcher, arity errors, type errors
from register coercion, unknown-modifier errors carrying the leftover token
set, duplicate-modifier errors, and encoding errors on unresolved labels. -/
inductive InstructionReadError where
| InvalidOperandFormat : String → OperandType → InstructionReadError
| InvalidArgumentCount : Nat → Nat → InstructionReadError
| InvalidOperandType : Nat → FullOperand → InstructionReadError
| UnknownArgument : List String → InstructionReadError
| DuplicateModifiers : List String → InstructionReadError
| UnresolvedLabelInEncoding : Nat → String → InstructionReadError
deriving DecidableEq

/-- Modelled from the spec: link-time failure — a label operand with no entry
in its namespace table, carrying the label name and namespace. -/
inductive AssemblyParseError where
| LabelNotFound : String → LabelNamespace → AssemblyParseError
deriving DecidableEq

/-- Modelled from the spec: digit-sequence reader used by the token grammar
(`acc` threads the value read so far; a non-digit character rejects). -/
def read_digits : List Char → Nat → Option Nat
| [], acc => some acc
| ch :: rest, acc =>
  if '0' ≤ ch ∧ ch ≤ '9' then read_digits rest (acc * 10 + (ch.toNat - Char.toNat '0'))
  else none

/-- Modelled from the spec: a register token is the letter r followed by a
digit sequence giving the register index. -/
def parse_register_token (tok : String) : Option Nat :=
match tok.data with
| 'r' :: ch :: rest =>
  if '0' ≤ ch ∧ ch ≤ '9' then read_digits (ch :: rest) 0 else none
| _ => none

/-- Modelled from the spec: an immediate token is a plain digit sequence. -/
def parse_immediate_token (tok : String) : Option Nat :=
match tok.data with
| ch :: rest =>
  if '0' ≤ ch ∧ ch ≤ '9' then read_digits (ch :: rest) 0 else none
| _ => none

/-- Modelled from the spec: a label token is an at-sign followed by the label
name; labels resolve in the function namespace by default. -/
def parse_label_token (tok : String) : Option String :=
match tok.data with
| '@' :: rest => if rest.isEmpty then none else some (String.mk rest)
| _ => none

/-- Modelled from the spec: classify one textual operand token against one
expected operand kind; the spec gives no concrete surface syntax for memory
references, so the modelled token grammar covers registers, decimal
immediates and at-sign labels. A label token is not admitted by the
full-operand marker — the label form of a template must be chosen
explicitly. -/
def parse_operand_of_type (t : OperandType) (tok : String) : Option FullOperand :=
match t with
| OperandType.RegOnly =>
  (parse_register_token tok).map (fun n => FullOperand.Register ⟨n⟩)
| OperandType.FullOp =>
  match parse_register_token tok with
  | some n => some (FullOperand.Register ⟨n⟩)
  | none => (parse_immediate_token tok).map FullOperand.Immediate
| OperandType.Label =>
  (parse_label_token tok).map (fun name => FullOperand.UnresolvedLabel name LabelNamespace.function)

/-- Modelled from the spec: classify each token against its expected kind,
failing with a classification error naming the first offending token and the
kind it was expected to have. -/
def parse_operand_list : List (String × OperandType) → Except InstructionReadError (List FullOperand)
| [] => Except.ok []
| (tok, t) :: rest =>
  match parse_operand_of_type t tok with
  | none => Except.error (InstructionReadError.InvalidOperandFormat tok t)
  | some op =>
    match parse_operand_list rest with
    | Except.error e => Except.error e
    | Except.ok ops => Except.ok (op :: ops)

/-- Modelled from the spec: the Canonical Operand Matcher — checks the token
count against the template (source kinds followed by destination kinds) and
classifies each token into its expected kind, with no partial acceptance. -/
def parse_canonical_operands_sequence (operands : List String) (sources : List OperandType) (dests : List OperandType) : Except InstructionReadError (List FullOperand) :=
if operands.length = sources.length + dests.length then
  parse_operand_list (operands.zip (sources ++ dests))
else
  Except.error (InstructionReadError.InvalidArgumentCount operands.length (sources.length + dests.length))

/-- Modelled from the spec: the condition modifiers, written with a cond
prefix as in the spec's scenarios, and the predicate each one selects. -/
def condition_of_modifier (tok : String) : Option Condition :=
if tok = ".cond.gt" then some Condition.gt
else if tok = ".cond.lt" then some Condition.lt
else if tok = ".cond.eq" then some Condition.eq
else if tok = ".cond.ge" then some Condition.ge
else if tok = ".cond.le" then some Condition.le
else if tok = ".cond.ne" then some Condition.ne
else none

/-- Modelled from the spec: whether a token is a recognized condition
modifier. -/
def is_condition_modifier (tok : String) : Bool :=
(condition_of_modifier tok).isSome

/-- Modelled from the spec: the flag-setting modifier keyword. -/
def SET_FLAGS_MODIFIER : String := ".set_flags"

/-- Modelled from the spec: the Modifier Extractor's condition step — removes
and interprets at most one condition modifier from the working set,
defaulting to the always predicate when none is present and failing when
more than one is present. -/
def pick_condition (modifiers : List String) : Except InstructionReadError (ConditionCase × List String) :=
match modifiers.filter (fun t => is_condition_modifier t) with
| [] => Except.ok (⟨Condition.always⟩, modifiers)
| [t] => Except.ok (⟨(condition_of_modifier t).getD Condition.always⟩, modifiers.filter (fun s => !is_condition_modifier s))
| ts => Except.error (InstructionReadError.DuplicateModifiers ts)

/-- Modelled from the spec: the Modifier Extractor's flags step — removes the
flag-setting keyword if present, defaulting to not setting flags. -/
def pick_setting_flags (modifiers : List String) : SetFlags × List String :=
if modifiers.contains SET_FLAGS_MODIFIER then
  (⟨true⟩, modifiers.filter (fun s => s ≠ SET_FLAGS_MODIFIER))
else
  (⟨false⟩, modifiers)

/-- Modelled from the spec: coerce a matched positional operand into the
register variant, failing with a type error (carrying the argument index and
the offending operand) if it is not a register. -/
def FullOperand.as_register_operand (op : FullOperand) (arg_idx : Nat) : Except InstructionReadError RegisterOperand :=
match op with
| FullOperand.Register r => Except.ok r
| other => Except.error (InstructionReadError.InvalidOperandType arg_idx other)

/-- Modelled from the spec: view a full operand as a resolved operand for
encoding; fails if the operand is still an unresolved label. -/
def FullOperand.as_generic_operand (op : FullOperand) (arg_idx : Nat) : Except InstructionReadError GenericOperand :=
match op with
| FullOperand.Register r => Except.ok (GenericOperand.Register r.index)
| FullOperand.Immediate v => Except.ok (GenericOperand.Immediate v)
| FullOperand.MemoryRef b o => Except.ok (GenericOperand.MemoryRef b o)
| FullOperand.UnresolvedLabel name _ => Except.error (InstructionReadError.UnresolvedLabelInEncoding arg_idx name)

/-- Whether an operand is still an unresolved label. -/
def FullOperand.is_label (op : FullOperand) : Bool :=
match op with
| FullOperand.UnresolvedLabel _ _ => true
| _ => false

/-- Modelled from the spec: a symbol table is a name-to-offset mapping with
unique keys, modelled as an association list. -/
def SymbolTable := List (String × Nat)

/-- Modelled from the spec: the Linker's per-operand step — an unresolved
label is looked up in the table implied by its namespace hint and replaced by
a resolved numeric operand on hit, a miss fails naming the label and
namespace, and any label-free operand is returned unchanged. -/
def link_operand (op : FullOperand) (function_labels_to_pc : SymbolTable) (constant_labels_to_offset : SymbolTable) (globals_to_offsets : SymbolTable) : Except AssemblyParseError FullOperand :=
match op with
| FullOperand.UnresolvedLabel name ns =>
  let table := match ns with
    | LabelNamespace.function => function_labels_to_pc
    | LabelNamespace.constant => constant_labels_to_offset
    | LabelNamespace.global => globals_to_offsets
  match table.lookup name with
  | some offset => Except.ok (FullOperand.Immediate offset)
  | none => Except.error (AssemblyParseError.LabelNotFound name ns)
| other => Except.ok other

/-- The arithmetic addition instruction (translated from the source). -/
structure Add where
condition : ConditionCase
set_flags_option : SetFlags
source_1 : FullOperand
source_2 : RegisterOperand
destination : FullOperand
deriving DecidableEq

/-- Total number of arguments in canonical form (translated from the
source). -/
def Add.NUM_ARGUMENTS : Nat := 3

/-- Translated from the source: build an `Add` from modifier tokens and
operand tokens.  The primary template (full operand, register, full operand)
is tried first; on its failure the whole list is retried with the label
template.  Then the condition and flags modifiers are extracted (in that
order), leftover modifiers fail construction, and the second positional
operand is coerced to a register while assembling the record.  The Rust
`HashSet` of modifiers is modelled as a list of distinct tokens. -/
def Add.build_from_parts (modifiers : List String) (operands : List String) : Except InstructionReadError Add :=
match
  (match parse_canonical_operands_sequence operands [marker_full_operand, marker_register_operand] [marker_full_operand] with
  | Except.ok ops => Except.ok ops
  | Except.error _ =>
    parse_canonical_operands_sequence operands [OperandType.Label, marker_register_operand] [marker_full_operand]) with
| Except.error e => Except.error e
| Except.ok ops =>
  let src0 := ops.getD 0 (FullOperand.Immediate 0)
  let src1 := ops.getD 1 (FullOperand.Immediate 0)
  let dst0 := ops.getD 2 (FullOperand.Immediate 0)
  match pick_condition modifiers with
  | Except.error e => Except.error e
  | Except.ok (condition, modifiers1) =>
    let (set_flags_option, modifiers2) := pick_setting_flags modifiers1
    if modifiers2.isEmpty = false then
      Except.error (InstructionReadError.UnknownArgument modifiers2)
    else
      match src1.as_register_operand 1 with
      | Except.error e => Except.error e
      | Except.ok source_2 =>
        Except.ok { condition := condition, source_1 := src0, source_2 := source_2, destination := dst0, set_flags_option := set_flags_option }

/-- Translated from the source: link the instruction's `source_1` and
`destination` operands against the three symbol tables.  The Rust method
mutates `self` in place and returns a unit result; this is modelled by
returning the (possibly partially) updated record together with the
result, so the state after a failed call is still observable. -/
def Add.link (self : Add) (function_labels_to_pc : SymbolTable) (constant_labels_to_offset : SymbolTable) (globals_to_offsets : SymbolTable) : Add × Except AssemblyParseError Unit :=
match link_operand self.source_1 function_labels_to_pc constant_labels_to_offset globals_to_offsets with
| Except.error e => (self, Except.error e)
| Except.ok s1 =>
  match link_operand self.destination function_labels_to_pc constant_labels_to_offset globals_to_offsets with
  | Except.error e => ({ self with source_1 := s1 }, Except.error e)
  | Except.ok d => ({ self with source_1 := s1, destination := d }, Except.ok ())

/-- Modelled from the spec: the encoder primitive placing a resolved full
operand into the shared src0 / dst0 physical slot, the boolean selecting the
destination role. -/
def set_src0_or_dst0_full_operand (operand : GenericOperand) (new : DecodedOpcode) (is_dst : Bool) : DecodedOpcode :=
if is_dst then { new with dst0 := operand } else { new with src0 := operand }

/-- Modelled from the spec: the encoder primitive placing a register-only
operand into the dedicated second-source register slot (the record has a
single destination slot, so the destination role writes nothing here). -/
def set_register_operand (reg : RegisterOperand) (new : DecodedOpcode) (is_dst : Bool) : DecodedOpcode :=
if is_dst then new else { new with src1_reg_idx := reg.index }

/-- Translated from the source: the `TryFrom<Add> for DecodedOpcode`
conversion — stamp the Add opcode into a default record, place `source_1`
into src0, `source_2` into the register slot, `destination` into dst0, then
copy the condition and the set-flags bit. -/
def DecodedOpcode.try_from (value : Add) : Except InstructionReadError DecodedOpcode :=
let base : DecodedOpcode :=
  { DecodedOpcode.default with variant := { OpcodeVariant.default with opcode := Opcode.Add AddOpcode.Add } }
match value.source_1.as_generic_operand 0 with
| Except.error e => Except.error e
| Except.ok g0 =>
  let new1 := set_src0_or_dst0_full_operand g0 base false
  let new2 := set_register_operand value.source_2 new1 false
  match value.destination.as_generic_operand 2 with
  | Except.error e => Except.error e
  | Except.ok g2 =>
    let new3 := set_src0_or_dst0_full_operand g2 new2 true
    let new4 := { new3 with condition := value.condition.c }
    Except.ok { new4 with variant := { new4.variant with flags := new4.variant.flags.set SET_FLAGS_FLAG_IDX value.set_flags_option.b } }

/-! Helper lemmas about the operand matcher. -/

theorem parse_operand_list_three {t0 t1 t2 : String} {A B C : OperandType} {l : List FullOperand} :
parse_operand_list [(t0, A), (t1, B), (t2, C)] = Except.ok l ↔
∃ o0 o1 o2, parse_operand_of_type A t0 = some o0 ∧ parse_operand_of_type B t1 = some o1 ∧ parse_operand_of_type C t2 = some o2 ∧ l = [o0, o1, o2] := by
  cases h0 : parse_operand_of_type A t0 <;> cases h1 : parse_operand_of_type B t1 <;>
    cases h2 : parse_operand_of_type C t2 <;> (simp [parse_operand_list, h0, h1, h2]; try tauto)

theorem parse_canonical_three {ops : List String} {A B C : OperandType} {l : List FullOperand} (h : parse_canonical_operands_sequence ops [A, B] [C] = Except.ok l) :
∃ t0 t1 t2 o0 o1 o2, ops = [t0, t1, t2] ∧ parse_operand_of_type A t0 = some o0 ∧ parse_operand_of_type B t1 = some o1 ∧ parse_operand_of_type C t2 = some o2 ∧ l = [o0, o1, o2] := by
  unfold parse_canonical_operands_sequence at h
  split at h
  case isTrue hlen =>
    obtain ⟨t0, t1, t2, rfl⟩ := List.length_eq_three.mp (by simpa using hlen)
    have h3 : ([t0, t1, t2].zip ([A, B] ++ [C])) = [(t0, A), (t1, B), (t2, C)] := rfl
    rw [h3] at h
    obtain ⟨o0, o1, o2, h0, h1, h2, rfl⟩ := parse_operand_list_three.mp h
    exact ⟨t0, t1, t2, o0, o1, o2, rfl, h0, h1, h2, rfl⟩
  case isFalse => exact absurd h (by simp)

theorem reg_marker_parse {tok : String} {op : FullOperand} (h : parse_operand_of_type marker_register_operand tok = some op) :
∃ r : RegisterOperand, op = FullOperand.Register r := by
  unfold parse_operand_of_type marker_register_operand at h
  cases hr : parse_register_token tok <;> simp [hr] at h
  exact ⟨_, h.symm⟩

theorem full_marker_parse {tok : String} {op : FullOperand} (h : parse_operand_of_type marker_full_operand tok = some op) :
(∃ r, op = FullOperand.Register r) ∨ (∃ v, op = FullOperand.Immediate v) := by
  rw [show marker_full_operand = OperandType.FullOp from rfl] at h
  simp only [parse_operand_of_type] at h
  cases hr : parse_register_token tok <;> rw [hr] at h
  case none =>
    cases hi : parse_immediate_token tok <;> simp [hi] at h
    exact Or.inr ⟨_, h.symm⟩
  case some =>
    simp at h
    exact Or.inl ⟨_, h.symm⟩

theorem full_marker_not_label {tok : String} {op : FullOperand} (h : parse_operand_of_type marker_full_operand tok = some op) :
op.is_label = false := by
  rcases full_marker_parse h with ⟨r, rfl⟩ | ⟨v, rfl⟩ <;> rfl

theorem label_marker_parse {tok : String} {op : FullOperand} (h : parse_operand_of_type OperandType.Label tok = some op) :
∃ name, op = FullOperand.UnresolvedLabel name LabelNamespace.function := by
  simp only [parse_operand_of_type] at h
  cases hl : parse_label_token tok <;> simp [hl] at h
  exact ⟨_, h.symm⟩

/-! Helper lemmas about linking and encoding. -/

theorem link_operand_not_label {op : FullOperand} (h : op.is_label = false) (f c g : SymbolTable) :
link_operand op f c g = Except.ok op := by
  cases op <;> simp_all [FullOperand.is_label, link_operand]

theorem as_generic_not_label {op : FullOperand} (h : op.is_label = false) (i : Nat) :
∃ go, op.as_generic_operand i = Except.ok go := by
  cases op <;> simp_all [FullOperand.is_label, FullOperand.as_generic_operand]

theorem link_resolved_noop {a : Add} (h1 : a.source_1.is_label = false) (h2 : a.destination.is_label = false) (f c g : SymbolTable) :
a.link f c g = (a, Except.ok ()) := by
  unfold Add.link
  rw [link_operand_not_label h1]
  simp only
  rw [link_operand_not_label h2]

theorem try_from_resolved {a : Add} {g0 g2 : GenericOperand} (h0 : a.source_1.as_generic_operand 0 = Except.ok g0) (h2 : a.destination.as_generic_operand 2 = Except.ok g2) :
DecodedOpcode.try_from a = Except.ok
{ variant := { opcode := Opcode.Add AddOpcode.Add, flags := [a.set_flags_option.b, false] },
  condition := a.condition.c,
  src0 := g0,
  src1_reg_idx := a.source_2.index,
  dst0 := g2 } := by
  unfold DecodedOpcode.try_from
  rw [h0, h2]
  simp [set_src0_or_dst0_full_operand, set_register_operand, DecodedOpcode.default, OpcodeVariant.default, SET_FLAGS_FLAG_IDX]

theorem try_from_ok_inv {a : Add} {rec : DecodedOpcode} (h : DecodedOpcode.try_from a = Except.ok rec) :
∃ g0 g2, a.source_1.as_generic_operand 0 = Except.ok g0 ∧ a.destination.as_generic_operand 2 = Except.ok g2 ∧ rec =
{ variant := { opcode := Opcode.Add AddOpcode.Add, flags := [a.set_flags_option.b, false] },
  condition := a.condition.c,
  src0 := g0,
  src1_reg_idx := a.source_2.index,
  dst0 := g2 } := by
  cases h0 : a.source_1.as_generic_operand 0 with
  | error e => unfold DecodedOpcode.try_from at h; rw [h0] at h; exact absurd h (by simp)
  | ok g0 =>
    cases h2 : a.destination.as_generic_operand 2 with
    | error e => unfold DecodedOpcode.try_from at h; rw [h0, h2] at h; exact absurd h (by simp)
    | ok g2 =>
      refine ⟨g0, g2, rfl, rfl, ?_⟩
      have := try_from_resolved h0 h2
      rw [this] at h
      exact (Except.ok.injEq _ _ |>.mp h).symm

theorem build_ok_of_primary {m ops : List String} {o0 o1 o2 : FullOperand} {r : RegisterOperand} {cc : ConditionCase} {m1 : List String}
(hp : parse_canonical_operands_sequence ops [marker_full_operand, marker_register_operand] [marker_full_operand] = Except.ok [o0, o1, o2])
(hc : pick_condition m = Except.ok (cc, m1))
(he : (pick_setting_flags m1).2 = [])
(hr : o1.as_register_operand 1 = Except.ok r) :
Add.build_from_parts m ops = Except.ok { condition := cc, set_flags_option := (pick_setting_flags m1).1, source_1 := o0, source_2 := r, destination := o2 } := by
  unfold Add.build_from_parts
  rw [hp, hc]
  rcases hps : pick_setting_flags m1 with ⟨sf, m2⟩
  rw [hps] at he
  simp at he
  subst he
  simp [hr, hps]

/-- Helper for proofs: the tail of `Add.build_from_parts` after the matcher
has produced the operand list (verbatim restatement; `build_primary_ok`,
`build_fallback_ok` and `build_both_fail` connect it to the source
function). -/
def add_build_with_operands (modifiers : List String) (l : List FullOperand) : Except InstructionReadError Add :=
let src0 := l.getD 0 (FullOperand.Immediate 0)
let src1 := l.getD 1 (FullOperand.Immediate 0)
let dst0 := l.getD 2 (FullOperand.Immediate 0)
match pick_condition modifiers with
| Except.error e => Except.error e
| Except.ok (condition, modifiers1) =>
  let (set_flags_option, modifiers2) := pick_setting_flags modifiers1
  if modifiers2.isEmpty = false then
    Except.error (InstructionReadError.UnknownArgument modifiers2)
  else
    match src1.as_register_operand 1 with
    | Except.error e => Except.error e
    | Except.ok source_2 =>
      Except.ok { condition := condition, source_1 := src0, source_2 := source_2, destination := dst0, set_flags_option := set_flags_option }

theorem build_primary_ok {m ops : List String} {l : List FullOperand} (hp : parse_canonical_operands_sequence ops [marker_full_operand, marker_register_operand] [marker_full_operand] = Except.ok l) :
Add.build_from_parts m ops = add_build_with_operands m l := by
  unfold Add.build_from_parts add_build_with_operands
  rw [hp]

theorem build_fallback_ok {m ops : List String} {e : InstructionReadError} {l : List FullOperand} (hp : parse_canonical_operands_sequence ops [marker_full_operand, marker_register_operand] [marker_full_operand] = Except.error e) (ha : parse_canonical_operands_sequence ops [OperandType.Label, marker_register_operand] [marker_full_operand] = Except.ok l) :
Add.build_from_parts m ops = add_build_with_operands m l := by
  unfold Add.build_from_parts add_build_with_operands
  rw [hp, ha]

theorem build_both_fail {m ops : List String} {e e2 : InstructionReadError} (hp : parse_canonical_operands_sequence ops [marker_full_operand, marker_register_operand] [marker_full_operand] = Except.error e) (ha : parse_canonical_operands_sequence ops [OperandType.Label, marker_register_operand] [marker_full_operand] = Except.error e2) :
Add.build_from_parts m ops = Except.error e2 := by
  unfold Add.build_from_parts
  rw [hp, ha]

theorem add_build_with_operands_ok_inv {m : List String} {l : List FullOperand} {a : Add} (h : add_build_with_operands m l = Except.ok a) :
a.source_1 = l.getD 0 (FullOperand.Immediate 0) ∧ a.destination = l.getD 2 (FullOperand.Immediate 0) ∧
(l.getD 1 (FullOperand.Immediate 0)).as_register_operand 1 = Except.ok a.source_2 ∧
∃ m1, pick_condition m = Except.ok (a.condition, m1) ∧ pick_setting_flags m1 = (a.set_flags_option, []) := by
  unfold add_build_with_operands at h
  cases hc : pick_condition m with
  | error e => rw [hc] at h; exact absurd h (by simp)
  | ok p =>
    rcases p with ⟨cc, m1⟩
    rw [hc] at h
    simp only at h
    rcases hps : pick_setting_flags m1 with ⟨sf, m2⟩
    rw [hps] at h
    simp only at h
    cases hm2 : m2.isEmpty with
    | false => rw [hm2] at h; exact absurd h (by simp)
    | true =>
      rw [hm2] at h
      simp only [Bool.true_eq_false, if_false] at h
      cases hr : (l.getD 1 (FullOperand.Immediate 0)).as_register_operand 1 with
      | error e => rw [hr] at h; exact absurd h (by simp)
      | ok r =>
        rw [hr] at h
        simp only [Except.ok.injEq] at h
        subst h
        refine ⟨rfl, rfl, rfl, m1, rfl, ?_⟩
        rw [hps, List.isEmpty_iff.mp hm2]

theorem build_ok_inv {m ops : List String} {a : Add} (h : Add.build_from_parts m ops = Except.ok a) :
∃ l, (parse_canonical_operands_sequence ops [marker_full_operand, marker_register_operand] [marker_full_operand] = Except.ok l ∨
((∃ e, parse_canonical_operands_sequence ops [marker_full_operand, marker_register_operand] [marker_full_operand] = Except.error e) ∧
parse_canonical_operands_sequence ops [OperandType.Label, marker_register_operand] [marker_full_operand] = Except.ok l)) ∧
a.source_1 = l.getD 0 (FullOperand.Immediate 0) ∧ a.destination = l.getD 2 (FullOperand.Immediate 0) ∧
(l.getD 1 (FullOperand.Immediate 0)).as_register_operand 1 = Except.ok a.source_2 ∧
∃ m1, pick_condition m = Except.ok (a.condition, m1) ∧ pick_setting_flags m1 = (a.set_flags_option, []) := by
  cases hp : parse_canonical_operands_sequence ops [marker_full_operand, marker_register_operand] [marker_full_operand] with
  | ok l =>
    rw [build_primary_ok hp] at h
    exact ⟨l, Or.inl rfl, add_build_with_operands_ok_inv h⟩
  | error e =>
    cases ha : parse_canonical_operands_sequence ops [OperandType.Label, marker_register_operand] [marker_full_operand] with
    | error e2 => rw [build_both_fail hp ha] at h; exact absurd h (by simp)
    | ok l =>
      rw [build_fallback_ok hp ha] at h
      exact ⟨l, Or.inr ⟨⟨e, rfl⟩, rfl⟩, add_build_with_operands_ok_inv h⟩

/-- Modelled from the spec: the tail of the construction routine in the
specification's literal step order — (b) coerce the second positional operand
into the register variant, failing with a type error if it is not a register,
then (c) run the Modifier Extractor, then (d) assemble the record. -/
def add_build_with_operands_spec_order (modifiers : List String) (l : List FullOperand) : Except InstructionReadError Add :=
match (l.getD 1 (FullOperand.Immediate 0)).as_register_operand 1 with
| Except.error e => Except.error e
| Except.ok source_2 =>
  match pick_condition modifiers with
  | Except.error e => Except.error e
  | Except.ok (condition, modifiers1) =>
    let (set_flags_option, modifiers2) := pick_setting_flags modifiers1
    if modifiers2.isEmpty = false then
      Except.error (InstructionReadError.UnknownArgument modifiers2)
    else
      Except.ok { condition := condition, source_1 := l.getD 0 (FullOperand.Immediate 0), source_2 := source_2, destination := l.getD 2 (FullOperand.Immediate 0), set_flags_option := set_flags_option }

/-- Modelled from the spec: construction following the specification's literal
step order — (a) run the Canonical Operand Matcher with the opcode's template
set, then the coercion / modifier-extraction / assembly tail.  Used to compare
the specified step order against the source's construction routine. -/
def Add.build_from_parts_spec_order (modifiers : List String) (operands : List String) : Except InstructionReadError Add :=
match
  (match parse_canonical_operands_sequence operands [marker_full_operand, marker_register_operand] [marker_full_operand] with
  | Except.ok ops => Except.ok ops
  | Except.error _ =>
    parse_canonical_operands_sequence operands [OperandType.Label, marker_register_operand] [marker_full_operand]) with
| Except.error e => Except.error e
| Except.ok ops => add_build_with_operands_spec_order modifiers ops

theorem matched_register_slot_coerces {ops : List String} {T : OperandType} {l : List FullOperand} (h : parse_canonical_operands_sequence ops [T, marker_register_operand] [marker_full_operand] = Except.ok l) :
∃ r, (l.getD 1 (FullOperand.Immediate 0)).as_register_operand 1 = Except.ok r := by
  obtain ⟨t0, t1, t2, o0, o1, o2, rfl, h0, h1, h2, rfl⟩ := parse_canonical_three h
  obtain ⟨r, rfl⟩ := reg_marker_parse h1
  exact ⟨r, rfl⟩

theorem pick_condition_snd_not_cond {m : List String} {cc : ConditionCase} {m1 : List String} (hc : pick_condition m = Except.ok (cc, m1)) :
∀ t ∈ m1, is_condition_modifier t = false := by
  unfold pick_condition at hc
  split at hc
  case h_1 hf =>
    simp only [Except.ok.injEq, Prod.mk.injEq] at hc
    obtain ⟨-, rfl⟩ := hc
    intro t ht
    by_contra hcond
    have : t ∈ m.filter (fun t => is_condition_modifier t) := by
      rw [List.mem_filter]
      exact ⟨ht, by simpa using hcond⟩
    rw [hf] at this
    exact List.not_mem_nil t this
  case h_2 t0 hf =>
    simp only [Except.ok.injEq, Prod.mk.injEq] at hc
    obtain ⟨-, rfl⟩ := hc
    intro t ht
    rw [List.mem_filter] at ht
    simpa using ht.2
  case h_3 => exact absurd hc (by simp)

theorem mem_pick_setting_flags_snd {m : List String} {t : String} (h : t ∈ (pick_setting_flags m).2) :
t ∈ m ∧ t ≠ SET_FLAGS_MODIFIER := by
  unfold pick_setting_flags at h
  split at h
  case isTrue hc =>
    simp only [List.mem_filter] at h
    exact ⟨h.1, by simpa using h.2⟩
  case isFalse hc =>
    simp only at h
    refine ⟨h, fun he => hc ?_⟩
    rw [he] at h
    exact List.elem_eq_true_of_mem h

theorem tail_eq_spec_order {m : List String} {l : List FullOperand} {r : RegisterOperand} (hr : (l.getD 1 (FullOperand.Immediate 0)).as_register_operand 1 = Except.ok r) :
add_build_with_operands m l = add_build_with_operands_spec_order m l := by
  unfold add_build_with_operands add_build_with_operands_spec_order
  rw [hr]
  cases hc : pick_condition m with
  | error e => rfl
  | ok p =>
    rcases p with ⟨cc, m1⟩
    simp only
    rcases hps : pick_setting_flags m1 with ⟨sf, m2⟩
    simp only
    cases hm2 : m2.isEmpty with
    | false => rfl
    | true => rw [hr]

theorem build_eq_spec_order (m ops : List String) :
Add.build_from_parts m ops = Add.build_from_parts_spec_order m ops := by
  cases hp : parse_canonical_operands_sequence ops [marker_full_operand, marker_register_operand] [marker_full_operand] with
  | ok l =>
    rw [build_primary_ok hp]
    unfold Add.build_from_parts_spec_order
    rw [hp]
    obtain ⟨r, hr⟩ := matched_register_slot_coerces hp
    exact tail_eq_spec_order hr
  | error e =>
    cases ha : parse_canonical_operands_sequence ops [OperandType.Label, marker_register_operand] [marker_full_operand] with
    | ok l =>
      rw [build_fallback_ok hp ha]
      unfold Add.build_from_parts_spec_order
      rw [hp, ha]
      obtain ⟨r, hr⟩ := matched_register_slot_coerces ha
      exact tail_eq_spec_order hr
    | error e2 =>
      rw [build_both_fail hp ha]
      unfold Add.build_from_parts_spec_order
      rw [hp, ha]

theorem is_label_iff {op : FullOperand} :
op.is_label = true ↔ ∃ name ns, op = FullOperand.UnresolvedLabel name ns := by
  cases op <;> simp [FullOperand.is_label]

theorem link_fst_shape (a : Add) (f c g : SymbolTable) :
∃ s1 d, (a.link f c g).1 = { a with source_1 := s1, destination := d } := by
  unfold Add.link
  split
  · exact ⟨a.source_1, a.destination, rfl⟩
  · split
    · exact ⟨_, a.destination, rfl⟩
    · exact ⟨_, _, rfl⟩

/-! Claim theorems. -/

/-- Claim C6: for every Add instruction and every triple of symbol tables,
`Add.link` mutates at most the `source_1` and `destination` operands; the
register-only `source_2` operand, the condition, and the set-flags option are
unchanged by linking, whether it succeeds or fails. -/
theorem add_link_frame_effect :
∀ (a : Add) (f c g : SymbolTable),
(a.link f c g).1.source_2 = a.source_2 ∧ (a.link f c g).1.condition = a.condition ∧ (a.link f c g).1.set_flags_option = a.set_flags_option := by
  intro a f c g
  obtain ⟨s1, d, hfst⟩ := link_fst_shape a f c g
  rw [hfst]
  exact ⟨rfl, rfl, rfl⟩

/-- Claim C7: linking an Add instruction whose `source_1` and `destination`
are already resolved (non-label) operands succeeds with any symbol tables and
leaves the instruction entirely unchanged. -/
theorem add_link_noop_on_resolved :
∀ (a : Add) (f c g : SymbolTable), a.source_1.is_label = false → a.destination.is_label = false →
a.link f c g = (a, Except.ok ()) :=
  fun _ f c g h1 h2 => link_resolved_noop h1 h2 f c g

/-- Witness for C7 at a concrete already-linked instruction. -/
theorem add_link_noop_on_resolved_witness :
({ condition := ⟨Condition.always⟩, set_flags_option := ⟨false⟩, source_1 := FullOperand.Register ⟨1⟩, source_2 := ⟨2⟩, destination := FullOperand.Immediate 7 } : Add).link [("main", 4)] [] [] =
({ condition := ⟨Condition.always⟩, set_flags_option := ⟨false⟩, source_1 := FullOperand.Register ⟨1⟩, source_2 := ⟨2⟩, destination := FullOperand.Immediate 7 }, Except.ok ()) :=
  add_link_noop_on_resolved _ [("main", 4)] [] [] rfl rfl

/-- Claim C3: the conversion to `DecodedOpcode` fails with an error whenever
`source_1` or `destination` is still an unresolved label, and returns `Ok`
(it is a total function) on every fully linked instruction. -/
theorem add_encode_unresolved_guard :
(∀ a : Add, (a.source_1.is_label = true ∨ a.destination.is_label = true) → ∃ e, DecodedOpcode.try_from a = Except.error e) ∧
(∀ a : Add, a.source_1.is_label = false → a.destination.is_label = false → ∃ rec, DecodedOpcode.try_from a = Except.ok rec) := by
  constructor
  · intro a h
    by_cases hs : a.source_1.is_label = true
    · obtain ⟨name, ns, hsl⟩ := is_label_iff.mp hs
      refine ⟨InstructionReadError.UnresolvedLabelInEncoding 0 name, ?_⟩
      unfold DecodedOpcode.try_from
      rw [hsl]
      rfl
    · have hs1 : a.source_1.is_label = false := by simpa using hs
      have hd : a.destination.is_label = true := by
        rcases h with h | h
        · exact absurd h hs
        · exact h
      obtain ⟨name, ns, hdl⟩ := is_label_iff.mp hd
      obtain ⟨g0, hg0⟩ := as_generic_not_label hs1 0
      refine ⟨InstructionReadError.UnresolvedLabelInEncoding 2 name, ?_⟩
      unfold DecodedOpcode.try_from
      rw [hg0]
      simp only
      rw [hdl]
      rfl
  · intro a h1 h2
    obtain ⟨g0, hg0⟩ := as_generic_not_label h1 0
    obtain ⟨g2, hg2⟩ := as_generic_not_label h2 2
    exact ⟨_, try_from_resolved hg0 hg2⟩

/-- Witness for C3: encoding fails on a concrete instruction holding an
unresolved label and succeeds on a concrete fully linked one. -/
theorem add_encode_unresolved_guard_witness :
(∃ e, DecodedOpcode.try_from { condition := ⟨Condition.always⟩, set_flags_option := ⟨false⟩, source_1 := FullOperand.UnresolvedLabel "lab" LabelNamespace.constant, source_2 := ⟨1⟩, destination := FullOperand.Register ⟨2⟩ } = Except.error e) ∧
(∃ rec, DecodedOpcode.try_from { condition := ⟨Condition.always⟩, set_flags_option := ⟨false⟩, source_1 := FullOperand.Immediate 3, source_2 := ⟨1⟩, destination := FullOperand.Register ⟨2⟩ } = Except.ok rec) :=
  ⟨add_encode_unresolved_guard.1 _ (Or.inl rfl), add_encode_unresolved_guard.2 _ rfl rfl⟩

/-- Claim C2: encoding a fully linked Add places `source_1` into the src0
slot (is-destination flag false), `source_2` into the dedicated register
slot, `destination` into the dst0 slot (is-destination flag true), and copies
the condition value and the single set-flags bit verbatim. -/
theorem add_encode_slot_placement :
(∀ (a : Add) (g0 g2 : GenericOperand),
a.source_1.as_generic_operand 0 = Except.ok g0 → a.destination.as_generic_operand 2 = Except.ok g2 →
DecodedOpcode.try_from a = Except.ok { variant := { opcode := Opcode.Add AddOpcode.Add, flags := [a.set_flags_option.b, false] }, condition := a.condition.c, src0 := g0, src1_reg_idx := a.source_2.index, dst0 := g2 }) ∧
(∀ (g : GenericOperand) (rec : DecodedOpcode), set_src0_or_dst0_full_operand g rec false = { rec with src0 := g } ∧ set_src0_or_dst0_full_operand g rec true = { rec with dst0 := g }) ∧
(∀ (r : RegisterOperand) (rec : DecodedOpcode), set_register_operand r rec false = { rec with src1_reg_idx := r.index }) :=
  ⟨fun _ _ _ h0 h2 => try_from_resolved h0 h2, fun _ _ => ⟨rfl, rfl⟩, fun _ _ => rfl⟩

/-- Witness for C2 at a concrete fully linked instruction. -/
theorem add_encode_slot_placement_witness :
DecodedOpcode.try_from { condition := ⟨Condition.eq⟩, set_flags_option := ⟨true⟩, source_1 := FullOperand.Immediate 5, source_2 := ⟨2⟩, destination := FullOperand.Register ⟨3⟩ } =
Except.ok { variant := { opcode := Opcode.Add AddOpcode.Add, flags := [true, false] }, condition := Condition.eq, src0 := GenericOperand.Immediate 5, src1_reg_idx := 2, dst0 := GenericOperand.Register 3 } :=
  add_encode_slot_placement.1 _ (GenericOperand.Immediate 5) (GenericOperand.Register 3) rfl rfl

/-- Claim C10: every successful conversion stamps exactly the Add opcode into
the variant, leaves every other variant field at its default, and writes only
the flag bit at `SET_FLAGS_FLAG_IDX`, all other flag bits keeping their
default values. -/
theorem add_encode_variant_frame :
∀ (a : Add) (rec : DecodedOpcode), DecodedOpcode.try_from a = Except.ok rec →
rec.variant.opcode = Opcode.Add AddOpcode.Add ∧
rec.variant.flags = OpcodeVariant.default.flags.set SET_FLAGS_FLAG_IDX a.set_flags_option.b ∧
rec.variant.flags.getD SET_FLAGS_FLAG_IDX false = a.set_flags_option.b ∧
(∀ i, i ≠ SET_FLAGS_FLAG_IDX → rec.variant.flags.getD i false = OpcodeVariant.default.flags.getD i false) := by
  intro a rec h
  obtain ⟨g0, g2, h0, h2, rfl⟩ := try_from_ok_inv h
  refine ⟨rfl, rfl, rfl, ?_⟩
  intro i hi
  match i with
  | 0 => exact absurd rfl hi
  | 1 => rfl
  | n + 2 => rfl

/-- Witness for C10 at a concrete instruction with the set-flags bit on. -/
theorem add_encode_variant_frame_witness :
({ variant := { opcode := Opcode.Add AddOpcode.Add, flags := [true, false] }, condition := Condition.ge, src0 := GenericOperand.Immediate 1, src1_reg_idx := 4, dst0 := GenericOperand.Immediate 2 } : DecodedOpcode).variant.opcode = Opcode.Add AddOpcode.Add ∧
({ variant := { opcode := Opcode.Add AddOpcode.Add, flags := [true, false] }, condition := Condition.ge, src0 := GenericOperand.Immediate 1, src1_reg_idx := 4, dst0 := GenericOperand.Immediate 2 } : DecodedOpcode).variant.flags = OpcodeVariant.default.flags.set SET_FLAGS_FLAG_IDX true ∧
({ variant := { opcode := Opcode.Add AddOpcode.Add, flags := [true, false] }, condition := Condition.ge, src0 := GenericOperand.Immediate 1, src1_reg_idx := 4, dst0 := GenericOperand.Immediate 2 } : DecodedOpcode).variant.flags.getD SET_FLAGS_FLAG_IDX false = true ∧
(∀ i, i ≠ SET_FLAGS_FLAG_IDX → ({ variant := { opcode := Opcode.Add AddOpcode.Add, flags := [true, false] }, condition := Condition.ge, src0 := GenericOperand.Immediate 1, src1_reg_idx := 4, dst0 := GenericOperand.Immediate 2 } : DecodedOpcode).variant.flags.getD i false = OpcodeVariant.default.flags.getD i false) :=
  add_encode_variant_frame { condition := ⟨Condition.ge⟩, set_flags_option := ⟨true⟩, source_1 := FullOperand.Immediate 1, source_2 := ⟨4⟩, destination := FullOperand.Immediate 2 } _ (by decide)

/-- Claim C9: the scenario with operand tokens r1, r2, r3 and no modifiers —
construction yields the always condition, flags off, register operands 1, 2, 3
in the three slots, and encoding places register 1 into src0, register 2 into
the register slot, register 3 into dst0, with the always condition bits and a
cleared flags bit. -/
theorem add_scenario_registers :
Add.build_from_parts [] ["r1", "r2", "r3"] = Except.ok { condition := ⟨Condition.always⟩, set_flags_option := ⟨false⟩, source_1 := FullOperand.Register ⟨1⟩, source_2 := ⟨2⟩, destination := FullOperand.Register ⟨3⟩ } ∧
DecodedOpcode.try_from { condition := ⟨Condition.always⟩, set_flags_option := ⟨false⟩, source_1 := FullOperand.Register ⟨1⟩, source_2 := ⟨2⟩, destination := FullOperand.Register ⟨3⟩ } =
Except.ok { variant := { opcode := Opcode.Add AddOpcode.Add, flags := [false, false] }, condition := Condition.always, src0 := GenericOperand.Register 1, src1_reg_idx := 2, dst0 := GenericOperand.Register 3 } :=
  ⟨by decide, by decide⟩

/-- Claim C1: for every token list matching the primary three-operand
template and well-formed modifiers, construction, then linking with any
symbol tables, then encoding all succeed, and the binary record's src0 /
register / dst0 fields hold the resolved values of the three original
operands while its condition field and set-flags bit hold the parsed
modifiers.  The primary template admits no labels, so every operand is its
own resolved value and any complete table set links it unchanged. -/
theorem add_build_link_encode_roundtrip :
∀ (m ops : List String) (f c g : SymbolTable) (l : List FullOperand) (cc : ConditionCase) (m1 : List String),
parse_canonical_operands_sequence ops [marker_full_operand, marker_register_operand] [marker_full_operand] = Except.ok l →
pick_condition m = Except.ok (cc, m1) →
(pick_setting_flags m1).2 = [] →
∃ a rec g0 r g2,
Add.build_from_parts m ops = Except.ok a ∧
a.link f c g = (a, Except.ok ()) ∧
DecodedOpcode.try_from a = Except.ok rec ∧
(l.getD 0 (FullOperand.Immediate 0)).as_generic_operand 0 = Except.ok g0 ∧
(l.getD 1 (FullOperand.Immediate 0)).as_register_operand 1 = Except.ok r ∧
(l.getD 2 (FullOperand.Immediate 0)).as_generic_operand 2 = Except.ok g2 ∧
rec.src0 = g0 ∧ rec.src1_reg_idx = r.index ∧ rec.dst0 = g2 ∧
rec.condition = cc.c ∧ rec.variant.flags.getD SET_FLAGS_FLAG_IDX false = ((pick_setting_flags m1).1).b := by
  intro m ops f c g l cc m1 hp hc he
  obtain ⟨t0, t1, t2, o0, o1, o2, rfl, h0, h1, h2, rfl⟩ := parse_canonical_three hp
  obtain ⟨r, rfl⟩ := reg_marker_parse h1
  have hnl0 : o0.is_label = false := full_marker_not_label h0
  have hnl2 : o2.is_label = false := full_marker_not_label h2
  have hb := build_ok_of_primary hp hc he rfl
  obtain ⟨g0, hg0⟩ := as_generic_not_label hnl0 0
  obtain ⟨g2, hg2⟩ := as_generic_not_label hnl2 2
  refine ⟨_, _, g0, r, g2, hb, link_resolved_noop hnl0 hnl2 f c g, try_from_resolved hg0 hg2, hg0, rfl, hg2, rfl, rfl, rfl, rfl, rfl⟩

/-- Witness for C1 on concrete tokens r1, r2, 42 with a condition and a
set-flags modifier. -/
theorem add_build_link_encode_roundtrip_witness :
∃ a rec g0 r g2,
Add.build_from_parts [".cond.lt", ".set_flags"] ["r1", "r2", "42"] = Except.ok a ∧
a.link [("main", 0)] [] [] = (a, Except.ok ()) ∧
DecodedOpcode.try_from a = Except.ok rec ∧
(([FullOperand.Register ⟨1⟩, FullOperand.Register ⟨2⟩, FullOperand.Immediate 42] : List FullOperand).getD 0 (FullOperand.Immediate 0)).as_generic_operand 0 = Except.ok g0 ∧
(([FullOperand.Register ⟨1⟩, FullOperand.Register ⟨2⟩, FullOperand.Immediate 42] : List FullOperand).getD 1 (FullOperand.Immediate 0)).as_register_operand 1 = Except.ok r ∧
(([FullOperand.Register ⟨1⟩, FullOperand.Register ⟨2⟩, FullOperand.Immediate 42] : List FullOperand).getD 2 (FullOperand.Immediate 0)).as_generic_operand 2 = Except.ok g2 ∧
rec.src0 = g0 ∧ rec.src1_reg_idx = r.index ∧ rec.dst0 = g2 ∧
rec.condition = (⟨Condition.lt⟩ : ConditionCase).c ∧ rec.variant.flags.getD SET_FLAGS_FLAG_IDX false = ((pick_setting_flags [".set_flags"]).1).b :=
  add_build_link_encode_roundtrip [".cond.lt", ".set_flags"] ["r1", "r2", "42"] [("main", 0)] [] []
    [FullOperand.Register ⟨1⟩, FullOperand.Register ⟨2⟩, FullOperand.Immediate 42] ⟨Condition.lt⟩ [".set_flags"]
    (by decide) (by decide) (by decide)

/-- Claim C4: when the primary template fails, the whole operand list is
retried against the alternate template whose first kind is Label (no partial
acceptance — a failure of both templates reports the alternate attempt's
error); a successful retry makes `source_1` an unresolved label prior to
linking; and when the primary template succeeds its matched operands are the
ones used, so the alternate template is never consulted. -/
theorem add_template_fallback :
(∀ (m ops : List String) (e : InstructionReadError) (l : List FullOperand) (a : Add),
parse_canonical_operands_sequence ops [marker_full_operand, marker_register_operand] [marker_full_operand] = Except.error e →
parse_canonical_operands_sequence ops [OperandType.Label, marker_register_operand] [marker_full_operand] = Except.ok l →
Add.build_from_parts m ops = Except.ok a →
a.source_1 = l.getD 0 (FullOperand.Immediate 0) ∧ ∃ name, a.source_1 = FullOperand.UnresolvedLabel name LabelNamespace.function) ∧
(∀ (m ops : List String) (e e2 : InstructionReadError),
parse_canonical_operands_sequence ops [marker_full_operand, marker_register_operand] [marker_full_operand] = Except.error e →
parse_canonical_operands_sequence ops [OperandType.Label, marker_register_operand] [marker_full_operand] = Except.error e2 →
Add.build_from_parts m ops = Except.error e2) ∧
(∀ (m ops : List String) (l : List FullOperand) (a : Add),
parse_canonical_operands_sequence ops [marker_full_operand, marker_register_operand] [marker_full_operand] = Except.ok l →
Add.build_from_parts m ops = Except.ok a →
a.source_1 = l.getD 0 (FullOperand.Immediate 0) ∧ a.destination = l.getD 2 (FullOperand.Immediate 0)) := by
  refine ⟨?_, ?_, ?_⟩
  · intro m ops e l a hp ha hb
    rw [build_fallback_ok hp ha] at hb
    obtain ⟨h1, -, -, -⟩ := add_build_with_operands_ok_inv hb
    obtain ⟨t0, t1, t2, o0, o1, o2, rfl, q0, q1, q2, rfl⟩ := parse_canonical_three ha
    obtain ⟨name, rfl⟩ := label_marker_parse q0
    exact ⟨h1, name, by rw [h1]; rfl⟩
  · intro m ops e e2 hp ha
    exact build_both_fail hp ha
  · intro m ops l a hp hb
    rw [build_primary_ok hp] at hb
    obtain ⟨h1, h2, -, -⟩ := add_build_with_operands_ok_inv hb
    exact ⟨h1, h2⟩

/-- Witness for C4 on the concrete tokens at-label1, r2, r3, which fail the
primary template and succeed under the label template. -/
theorem add_template_fallback_witness :
({ condition := ⟨Condition.always⟩, set_flags_option := ⟨false⟩, source_1 := FullOperand.UnresolvedLabel "label1" LabelNamespace.function, source_2 := ⟨2⟩, destination := FullOperand.Register ⟨3⟩ } : Add).source_1 = ([FullOperand.UnresolvedLabel "label1" LabelNamespace.function, FullOperand.Register ⟨2⟩, FullOperand.Register ⟨3⟩] : List FullOperand).getD 0 (FullOperand.Immediate 0) ∧
∃ name, ({ condition := ⟨Condition.always⟩, set_flags_option := ⟨false⟩, source_1 := FullOperand.UnresolvedLabel "label1" LabelNamespace.function, source_2 := ⟨2⟩, destination := FullOperand.Register ⟨3⟩ } : Add).source_1 = FullOperand.UnresolvedLabel name LabelNamespace.function :=
  add_template_fallback.1 [] ["@label1", "r2", "r3"] (InstructionReadError.InvalidOperandFormat "@label1" marker_full_operand)
    [FullOperand.UnresolvedLabel "label1" LabelNamespace.function, FullOperand.Register ⟨2⟩, FullOperand.Register ⟨3⟩]
    { condition := ⟨Condition.always⟩, set_flags_option := ⟨false⟩, source_1 := FullOperand.UnresolvedLabel "label1" LabelNamespace.function, source_2 := ⟨2⟩, destination := FullOperand.Register ⟨3⟩ }
    (by decide) (by decide) (by decide)

/-- Claim C5: the condition modifier is extracted before the flags modifier,
and leftover modifier tokens after both extractions fail construction with an
unknown-modifier error whose leftover set is exactly the unrecognized tokens;
in particular the modifier set with cond-eq and an unknown token fails
listing only the unknown token. -/
theorem add_unknown_modifier_error :
(∀ (m ops : List String) (l : List FullOperand) (cc : ConditionCase) (m1 : List String),
parse_canonical_operands_sequence ops [marker_full_operand, marker_register_operand] [marker_full_operand] = Except.ok l →
pick_condition m = Except.ok (cc, m1) →
(pick_setting_flags m1).2 ≠ [] →
Add.build_from_parts m ops = Except.error (InstructionReadError.UnknownArgument ((pick_setting_flags m1).2)) ∧
∀ t ∈ (pick_setting_flags m1).2, is_condition_modifier t = false ∧ t ≠ SET_FLAGS_MODIFIER) ∧
Add.build_from_parts [".cond.eq", ".unknown"] ["r1", "r2", "r3"] = Except.error (InstructionReadError.UnknownArgument [".unknown"]) := by
  constructor
  · intro m ops l cc m1 hp hc hne
    constructor
    · rw [build_primary_ok hp]
      unfold add_build_with_operands
      rw [hc]
      simp only
      rcases hps : pick_setting_flags m1 with ⟨sf, m2⟩
      rw [hps] at hne
      simp only at hne ⊢
      have hm2 : m2.isEmpty = false := by simpa using hne
      rw [hm2]
      simp
    · intro t ht
      have h2 := mem_pick_setting_flags_snd ht
      exact ⟨pick_condition_snd_not_cond hc t h2.1, h2.2⟩
  · decide

/-- Witness for C5 at the concrete leftover modifier set containing only an
unknown token. -/
theorem add_unknown_modifier_error_witness :
(Add.build_from_parts [".unknown"] ["r1", "r2", "r3"] = Except.error (InstructionReadError.UnknownArgument ((pick_setting_flags [".unknown"]).2)) ∧
∀ t ∈ (pick_setting_flags [".unknown"]).2, is_condition_modifier t = false ∧ t ≠ SET_FLAGS_MODIFIER) :=
  add_unknown_modifier_error.1 [".unknown"] ["r1", "r2", "r3"]
    [FullOperand.Register ⟨1⟩, FullOperand.Register ⟨2⟩, FullOperand.Register ⟨3⟩]
    ⟨Condition.always⟩ [".unknown"] (by decide) (by decide) (by decide)

/-- Claim C8: the construction routine behaves exactly as the specified step
order — (a) canonical operand matching, (b) register coercion of the second
positional operand, (c) modifier extraction, (d) assembly — on every input
(the two orders are observationally equal), and the matcher only ever hands
the coercion step a register in the second position, so the step-(b) type
error precedes (indeed pre-empts) modifier extraction on every input where it
could arise. -/
theorem add_build_step_order :
(∀ (m ops : List String), Add.build_from_parts m ops = Add.build_from_parts_spec_order m ops) ∧
(∀ (ops : List String) (l : List FullOperand),
(parse_canonical_operands_sequence ops [marker_full_operand, marker_register_operand] [marker_full_operand] = Except.ok l ∨
parse_canonical_operands_sequence ops [OperandType.Label, marker_register_operand] [marker_full_operand] = Except.ok l) →
∃ r, (l.getD 1 (FullOperand.Immediate 0)).as_register_operand 1 = Except.ok r) := by
  refine ⟨build_eq_spec_order, ?_⟩
  intro ops l h
  rcases h with h | h
  · exact matched_register_slot_coerces h
  · exact matched_register_slot_coerces h

/-- Witness for C8's coercion-totality part at a concrete matched operand
list. -/
theorem add_build_step_order_witness :
∃ r, (([FullOperand.Register ⟨1⟩, FullOperand.Register ⟨2⟩, FullOperand.Register ⟨3⟩] : List FullOperand).getD 1 (FullOperand.Immediate 0)).as_register_operand 1 = Except.ok r :=
  add_build_step_order.2 ["r1", "r2", "r3"] [FullOperand.Register ⟨1⟩, FullOperand.Register ⟨2⟩, FullOperand.Register ⟨3⟩] (Or.inl (by decide))

end ZkAsm
